import Mathlib

/-!
Verification of the `random-number-generator` repository.

Shallow embedding of the two pseudo-random number generators of the
repository (`src/rng_lcg.py` and `src/rng_xor_shift.py`) and proofs of the
specification claims about them.

Modelling conventions:
* Python integers are unbounded, so they are modelled by `Int` (or `Nat`
  where the value is a masked 32-bit quantity and all operations are
  `Nat`-valued).
* Python `%` is floor-mod, which is `Int.fmod`.
* Python `seed & 0xFFFFFFFF` on an arbitrary-precision two's-complement
  integer equals `seed mod 2^32`, modelled as `(Int.fmod seed (2^32)).toNat`.
* Real-valued division (Python `/`) is modelled over `ℚ`; the float literal
  `1e-6` is modelled as the rational `1 / 1000000`.
* Methods that mutate `self` are modelled by explicit state passing: an
  operation takes the generator and returns the new generator together with
  its result.  A Python `raise` is modelled by `Except`: the generator
  component of the returned pair is the object as the exception leaves it.
* The three `ValueError` raise sites ("Seed must be non-zero",
  "low must be <= high", "n must be positive") are distinguished as the
  three constructors of `RNGError`.
-/

set_option maxHeartbeats 1000000

namespace RNG

/-- The three failure modes of the library: non-zero-seed violation at
construction, `low > high` in `randint`, non-positive `n` in
`generate_sequence`. -/
inductive RNGError where
  | invalidSeed
  | invalidRange
  | invalidCount
deriving DecidableEq, Repr

/-- The float literal `1e-6` of the scaling code, as a rational. -/
def eps : ℚ := 1 / 1000000

/-- Python `min(seq)` over a list (the `0` default is never reached by the
library: `min` is only applied to nonempty sequences). -/
def pymin {α : Type} [LinearOrder α] [Zero α] : List α → α
  | [] => 0
  | x :: xs => xs.foldl min x

/-- Python `max(seq)` over a list. -/
def pymax {α : Type} [LinearOrder α] [Zero α] : List α → α
  | [] => 0
  | x :: xs => xs.foldl max x

/-- The min-max scaling step shared by both `generate_sequence`
implementations:
`if max_val == min_val: return [0.0 for _ in seq]` else
`[(x - min_val) / (max_val - min_val + 1e-6) for x in seq]`. -/
def minmaxScale (seq : List Int) : List ℚ :=
  let min_val := pymin seq
  let max_val := pymax seq
  if max_val = min_val then seq.map fun _ => (0 : ℚ)
  else seq.map fun (x : Int) =>
    ((x : ℚ) - (min_val : ℚ)) / ((max_val : ℚ) - (min_val : ℚ) + eps)

/-- The same scaling step for the `XORShiftRNG` sequences, whose raw values
are naturals. -/
def minmaxScaleN (seq : List Nat) : List ℚ :=
  let min_val := pymin seq
  let max_val := pymax seq
  if max_val = min_val then seq.map fun _ => (0 : ℚ)
  else seq.map fun (x : Nat) =>
    ((x : ℚ) - (min_val : ℚ)) / ((max_val : ℚ) - (min_val : ℚ) + eps)

/-- A sequence returned by `generate_sequence`: raw integers when
`scale=False`, floats (modelled as rationals) when `scale=True`. -/
inductive SeqResult where
  | raw (xs : List Int)
  | scaled (xs : List ℚ)
deriving DecidableEq, Repr

/-- Like `SeqResult` but with natural-number raw values, for `XORShiftRNG`. -/
inductive SeqResultN where
  | raw (xs : List Nat)
  | scaled (xs : List ℚ)
deriving DecidableEq, Repr

/-- The `LCG` object: `self.state`, `self.a`, `self.c`, `self.m`. -/
structure LCG where
  state : Int
  a : Int
  c : Int
  m : Int
deriving DecidableEq, Repr

/-- `LCG.__init__`: rejects `seed == 0`, otherwise sets
`self.state = seed % m` and stores `a`, `c`, `m`. -/
def LCG.init (seed a c m : Int) : Except RNGError LCG :=
  if seed = 0 then .error .invalidSeed
  else .ok { state := seed.fmod m, a := a, c := c, m := m }

/-- `LCG(seed)` with the default parameters
`a=1664525, c=1013904223, m=2**32`. -/
def LCG.initDefault (seed : Int) : Except RNGError LCG :=
  LCG.init seed 1664525 1013904223 (2 ^ 32)

/-- `LCG.next`: `self.state = (self.a * self.state + self.c) % self.m;
return self.state`. -/
def LCG.next (g : LCG) : LCG × Int :=
  let s := (g.a * g.state + g.c).fmod g.m
  ({ g with state := s }, s)

/-- `LCG.random`: `return self.next() / self.m` (true division). -/
def LCG.random (g : LCG) : LCG × ℚ :=
  let p := g.next
  (p.1, (p.2 : ℚ) / (g.m : ℚ))

/-- `LCG.randint`: rejects `low > high`, otherwise
`return low + self.next() % (high - low + 1)`. -/
def LCG.randint (g : LCG) (low high : Int) : LCG × Except RNGError Int :=
  if low > high then (g, .error .invalidRange)
  else
    let p := g.next
    (p.1, .ok (low + p.2.fmod (high - low + 1)))

/-- The list comprehension `[self.next() for _ in range(n)]`: `k` successive
`next()` calls, threading the state, returning the final state and the list
of results in call order. -/
def LCG.nextList (g : LCG) : Nat → LCG × List Int
  | 0 => (g, [])
  | Nat.succ k =>
    let p := g.next
    let q := p.1.nextList k
    (q.1, p.2 :: q.2)

/-- The generator after `k` calls to `next()`. -/
def LCG.stateAfter (g : LCG) : Nat → LCG
  | 0 => g
  | Nat.succ k => (g.stateAfter k).next.1

/-- `LCG.generate_sequence`: rejects `n <= 0`, otherwise draws
`seq = [self.next() for _ in range(n)]` and returns it raw
(`scale=False`) or min-max scaled (`scale=True`). -/
def LCG.generate_sequence (g : LCG) (n : Int) (scale : Bool) :
    LCG × Except RNGError SeqResult :=
  if n ≤ 0 then (g, .error .invalidCount)
  else
    let p := g.nextList n.toNat
    if scale then (p.1, .ok (.scaled (minmaxScale p.2)))
    else (p.1, .ok (.raw p.2))

/-- The `XORShiftRNG` object: `self.state`, `self.q`, `self.r`, `self.s`.
The state is kept as a `Nat` because the code masks it to 32 bits. -/
structure XORShiftRNG where
  state : Nat
  q : Nat
  r : Nat
  s : Nat
deriving DecidableEq, Repr

/-- `XORShiftRNG.__init__`: rejects `seed == 0`, otherwise sets
`self.state = seed & 0xFFFFFFFF`, i.e. `seed mod 2^32`, and stores the
shift amounts `q`, `r`, `s`. -/
def XORShiftRNG.init (seed : Int) (q r s : Nat) : Except RNGError XORShiftRNG :=
  if seed = 0 then .error .invalidSeed
  else .ok { state := (seed.fmod (2 ^ 32)).toNat, q := q, r := r, s := s }

/-- `XORShiftRNG(seed)` with the default parameters `q=13, r=17, s=5`. -/
def XORShiftRNG.initDefault (seed : Int) : Except RNGError XORShiftRNG :=
  XORShiftRNG.init seed 13 17 5

/-- `XORShiftRNG.next`:
`x ^= (x << q) & 0xFFFFFFFF; x ^= (x >> r); x ^= (x << s) & 0xFFFFFFFF;
self.state = x & 0xFFFFFFFF; return self.state`. -/
def XORShiftRNG.next (g : XORShiftRNG) : XORShiftRNG × Nat :=
  let x1 := g.state ^^^ ((g.state <<< g.q) &&& 0xFFFFFFFF)
  let x2 := x1 ^^^ (x1 >>> g.r)
  let x3 := x2 ^^^ ((x2 <<< g.s) &&& 0xFFFFFFFF)
  let st := x3 &&& 0xFFFFFFFF
  ({ g with state := st }, st)

/-- `XORShiftRNG.random`: `return self.next() / 2**32`. -/
def XORShiftRNG.random (g : XORShiftRNG) : XORShiftRNG × ℚ :=
  let p := g.next
  (p.1, (p.2 : ℚ) / (2 ^ 32 : ℚ))

/-- `XORShiftRNG.randint`: rejects `low > high`, otherwise
`return low + self.next() % (high - low + 1)`. -/
def XORShiftRNG.randint (g : XORShiftRNG) (low high : Int) :
    XORShiftRNG × Except RNGError Int :=
  if low > high then (g, .error .invalidRange)
  else
    let p := g.next
    (p.1, .ok (low + (p.2 : Int).fmod (high - low + 1)))

/-- `[self.next() for _ in range(n)]` for `XORShiftRNG`. -/
def XORShiftRNG.nextList (g : XORShiftRNG) : Nat → XORShiftRNG × List Nat
  | 0 => (g, [])
  | Nat.succ k =>
    let p := g.next
    let q := p.1.nextList k
    (q.1, p.2 :: q.2)

/-- The generator after `k` calls to `next()`. -/
def XORShiftRNG.stateAfter (g : XORShiftRNG) : Nat → XORShiftRNG
  | 0 => g
  | Nat.succ k => (g.stateAfter k).next.1

/-- `XORShiftRNG.generate_sequence`: rejects `n <= 0`, otherwise draws
`seq = [self.next() for _ in range(n)]` and returns it raw or scaled. -/
def XORShiftRNG.generate_sequence (g : XORShiftRNG) (n : Int) (scale : Bool) :
    XORShiftRNG × Except RNGError SeqResultN :=
  if n ≤ 0 then (g, .error .invalidCount)
  else
    let p := g.nextList n.toNat
    if scale then (p.1, .ok (.scaled (minmaxScaleN p.2)))
    else (p.1, .ok (.raw p.2))

/-! Helper lemmas about Python `min`/`max` (folds over a list). -/

theorem foldl_min_le_init {α : Type} [LinearOrder α] (l : List α) (a : α) :
    l.foldl min a ≤ a := by
  induction l generalizing a with
  | nil => exact le_refl a
  | cons x xs ih => exact le_trans (ih (min a x)) (min_le_left a x)

theorem foldl_min_le_mem {α : Type} [LinearOrder α] (l : List α) (a x : α)
    (hx : x ∈ l) : l.foldl min a ≤ x := by
  induction l generalizing a with
  | nil => cases hx
  | cons y ys ih =>
    rcases List.mem_cons.mp hx with h | h
    · subst h
      exact le_trans (foldl_min_le_init ys (min a x)) (min_le_right a x)
    · exact ih (min a y) h

theorem foldl_min_mem {α : Type} [LinearOrder α] (l : List α) (a : α) :
    l.foldl min a = a ∨ l.foldl min a ∈ l := by
  induction l generalizing a with
  | nil => exact Or.inl rfl
  | cons y ys ih =>
    rcases ih (min a y) with h | h
    · rcases min_choice a y with hm | hm
      · exact Or.inl (by simpa [hm] using h)
      · rw [hm] at h
        exact Or.inr (by simp only [List.foldl_cons, hm, h]; exact List.mem_cons_self y ys)
    · exact Or.inr (List.mem_cons_of_mem y (by simpa using h))

theorem le_foldl_max_init {α : Type} [LinearOrder α] (l : List α) (a : α) :
    a ≤ l.foldl max a := by
  induction l generalizing a with
  | nil => exact le_refl a
  | cons x xs ih => exact le_trans (le_max_left a x) (ih (max a x))

theorem le_foldl_max_mem {α : Type} [LinearOrder α] (l : List α) (a x : α)
    (hx : x ∈ l) : x ≤ l.foldl max a := by
  induction l generalizing a with
  | nil => cases hx
  | cons y ys ih =>
    rcases List.mem_cons.mp hx with h | h
    · subst h
      exact le_trans (le_max_right a x) (le_foldl_max_init ys (max a x))
    · exact ih (max a y) h

theorem foldl_max_mem {α : Type} [LinearOrder α] (l : List α) (a : α) :
    l.foldl max a = a ∨ l.foldl max a ∈ l := by
  induction l generalizing a with
  | nil => exact Or.inl rfl
  | cons y ys ih =>
    rcases ih (max a y) with h | h
    · rcases max_choice a y with hm | hm
      · exact Or.inl (by simpa [hm] using h)
      · rw [hm] at h
        exact Or.inr (by simp only [List.foldl_cons, hm, h]; exact List.mem_cons_self y ys)
    · exact Or.inr (List.mem_cons_of_mem y (by simpa using h))

theorem pymin_le {α : Type} [LinearOrder α] [Zero α] (l : List α) (x : α)
    (hx : x ∈ l) : pymin l ≤ x := by
  cases l with
  | nil => cases hx
  | cons y ys =>
    rcases List.mem_cons.mp hx with h | h
    · subst h; exact foldl_min_le_init ys x
    · exact foldl_min_le_mem ys y x h

theorem le_pymax {α : Type} [LinearOrder α] [Zero α] (l : List α) (x : α)
    (hx : x ∈ l) : x ≤ pymax l := by
  cases l with
  | nil => cases hx
  | cons y ys =>
    rcases List.mem_cons.mp hx with h | h
    · subst h; exact le_foldl_max_init ys x
    · exact le_foldl_max_mem ys y x h

theorem pymin_mem {α : Type} [LinearOrder α] [Zero α] (l : List α)
    (h : l ≠ []) : pymin l ∈ l := by
  cases l with
  | nil => exact absurd rfl h
  | cons y ys =>
    rcases foldl_min_mem ys y with h1 | h1
    · show ys.foldl min y ∈ y :: ys
      rw [h1]; exact List.mem_cons_self y ys
    · exact List.mem_cons_of_mem y h1

theorem pymax_mem {α : Type} [LinearOrder α] [Zero α] (l : List α)
    (h : l ≠ []) : pymax l ∈ l := by
  cases l with
  | nil => exact absurd rfl h
  | cons y ys =>
    rcases foldl_max_mem ys y with h1 | h1
    · show ys.foldl max y ∈ y :: ys
      rw [h1]; exact List.mem_cons_self y ys
    · exact List.mem_cons_of_mem y h1

theorem pymin_le_pymax {α : Type} [LinearOrder α] [Zero α] (l : List α)
    (h : l ≠ []) : pymin l ≤ pymax l :=
  le_trans (pymin_le l (pymin l) (pymin_mem l h)) (le_pymax l (pymin l) (pymin_mem l h))

/-! Helper lemmas about the min-max scaling arithmetic over `ℚ`. -/

theorem eps_pos : (0 : ℚ) < eps := by norm_num [eps]

theorem scale_bounds {lo hi x : ℚ} (h1 : lo ≤ x) (h2 : x ≤ hi) (h3 : lo < hi) :
    0 ≤ (x - lo) / (hi - lo + eps) ∧ (x - lo) / (hi - lo + eps) < 1 := by
  have hd : 0 < hi - lo + eps := by have := eps_pos; linarith
  refine ⟨div_nonneg (by linarith) hd.le, ?_⟩
  rw [div_lt_one hd]
  have := eps_pos
  linarith

/-- Masking with `0xFFFFFFFF` is reduction mod `2^32`. -/
theorem mask_eq_mod (x : Nat) : x &&& 0xFFFFFFFF = x % 2 ^ 32 := by
  have h : (0xFFFFFFFF : Nat) = 2 ^ 32 - 1 := by norm_num
  rw [h, Nat.and_pow_two_sub_one_eq_mod]

theorem minmaxScale_bounds (seq : List Int) (hne : seq ≠ []) :
    ∀ y ∈ minmaxScale seq, 0 ≤ y ∧ y < 1 := by
  intro y hy
  unfold minmaxScale at hy
  by_cases hcase : pymax seq = pymin seq
  · rw [if_pos hcase] at hy
    rcases List.mem_map.mp hy with ⟨x, hx, hxy⟩
    subst hxy
    norm_num
  · rw [if_neg hcase] at hy
    rcases List.mem_map.mp hy with ⟨x, hx, hxy⟩
    subst hxy
    have h1 : pymin seq ≤ x := pymin_le seq x hx
    have h2 : x ≤ pymax seq := le_pymax seq x hx
    have h3 : pymin seq < pymax seq :=
      lt_of_le_of_ne (pymin_le_pymax seq hne) (Ne.symm hcase)
    exact scale_bounds (by exact_mod_cast h1) (by exact_mod_cast h2) (by exact_mod_cast h3)

theorem minmaxScaleN_bounds (seq : List Nat) (hne : seq ≠ []) :
    ∀ y ∈ minmaxScaleN seq, 0 ≤ y ∧ y < 1 := by
  intro y hy
  unfold minmaxScaleN at hy
  by_cases hcase : pymax seq = pymin seq
  · rw [if_pos hcase] at hy
    rcases List.mem_map.mp hy with ⟨x, hx, hxy⟩
    subst hxy
    norm_num
  · rw [if_neg hcase] at hy
    rcases List.mem_map.mp hy with ⟨x, hx, hxy⟩
    subst hxy
    have h1 : pymin seq ≤ x := pymin_le seq x hx
    have h2 : x ≤ pymax seq := le_pymax seq x hx
    have h3 : pymin seq < pymax seq :=
      lt_of_le_of_ne (pymin_le_pymax seq hne) (Ne.symm hcase)
    exact scale_bounds (by exact_mod_cast h1) (by exact_mod_cast h2) (by exact_mod_cast h3)

theorem minmaxScale_degenerate (seq : List Int) (h : pymax seq = pymin seq) :
    minmaxScale seq = seq.map fun _ => (0 : ℚ) := by
  unfold minmaxScale
  rw [if_pos h]

theorem minmaxScale_formula (seq : List Int) (h : ¬ pymax seq = pymin seq) :
    minmaxScale seq = seq.map fun (x : Int) =>
      ((x : ℚ) - ((pymin seq : Int) : ℚ)) /
        (((pymax seq : Int) : ℚ) - ((pymin seq : Int) : ℚ) + eps) := by
  unfold minmaxScale
  rw [if_neg h]

theorem minmaxScaleN_degenerate (seq : List Nat) (h : pymax seq = pymin seq) :
    minmaxScaleN seq = seq.map fun _ => (0 : ℚ) := by
  unfold minmaxScaleN
  rw [if_pos h]

theorem minmaxScaleN_formula (seq : List Nat) (h : ¬ pymax seq = pymin seq) :
    minmaxScaleN seq = seq.map fun (x : Nat) =>
      ((x : ℚ) - ((pymin seq : Nat) : ℚ)) /
        (((pymax seq : Nat) : ℚ) - ((pymin seq : Nat) : ℚ) + eps) := by
  unfold minmaxScaleN
  rw [if_neg h]

/-! Helper lemmas about the `LCG` state stream. -/

theorem LCG.next_m (g : LCG) : g.next.1.m = g.m := rfl

theorem LCG.next_state_bounds (g : LCG) (hm : 0 < g.m) :
    0 ≤ g.next.1.state ∧ g.next.1.state < g.m := by
  constructor
  · show 0 ≤ (g.a * g.state + g.c).fmod g.m
    exact Int.fmod_nonneg' _ hm
  · show (g.a * g.state + g.c).fmod g.m < g.m
    exact Int.fmod_lt_of_pos _ hm

theorem LCG.stateAfter_succ_shift (g : LCG) (k : Nat) :
    g.next.1.stateAfter k = g.stateAfter (k + 1) := by
  induction k with
  | zero => rfl
  | succ n ih =>
    show (g.next.1.stateAfter n).next.1 = (g.stateAfter (n + 1)).next.1
    rw [ih]

theorem LCG.nextList_length (g : LCG) (k : Nat) : (g.nextList k).2.length = k := by
  induction k generalizing g with
  | zero => rfl
  | succ n ih =>
    show (g.next.2 :: (g.next.1.nextList n).2).length = n + 1
    rw [List.length_cons, ih]

theorem LCG.nextList_fst (g : LCG) (k : Nat) : (g.nextList k).1 = g.stateAfter k := by
  induction k generalizing g with
  | zero => rfl
  | succ n ih =>
    show (g.next.1.nextList n).1 = g.stateAfter (n + 1)
    rw [ih, stateAfter_succ_shift]

theorem LCG.nextList_getElem (g : LCG) (k i : Nat) (h : i < k) :
    (g.nextList k).2[i]? = some ((g.stateAfter i).next.2) := by
  induction k generalizing g i with
  | zero => omega
  | succ n ih =>
    show (g.next.2 :: (g.next.1.nextList n).2)[i]? = some ((g.stateAfter i).next.2)
    cases i with
    | zero =>
      rw [List.getElem?_cons_zero]
      exact rfl
    | succ j =>
      have hj : j < n := by omega
      rw [List.getElem?_cons_succ, ih g.next.1 j hj, stateAfter_succ_shift]

theorem LCG.stateAfter_m (g : LCG) (k : Nat) : (g.stateAfter k).m = g.m := by
  induction k with
  | zero => rfl
  | succ n ih =>
    show (g.stateAfter n).next.1.m = g.m
    rw [LCG.next_m, ih]

theorem LCG.stateAfter_bounds (g : LCG) (hm : 0 < g.m) (h0 : 0 ≤ g.state)
    (h1 : g.state < g.m) (k : Nat) :
    0 ≤ (g.stateAfter k).state ∧ (g.stateAfter k).state < g.m := by
  induction k with
  | zero => exact ⟨h0, h1⟩
  | succ n ih =>
    have hm' : 0 < (g.stateAfter n).m := by rw [stateAfter_m]; exact hm
    have hb := LCG.next_state_bounds (g.stateAfter n) hm'
    refine ⟨hb.1, ?_⟩
    have := hb.2
    rw [stateAfter_m] at this
    exact this

/-! Helper lemmas about the `XORShiftRNG` state stream. -/

theorem XORShiftRNG.next_state_lt (g : XORShiftRNG) : g.next.1.state < 2 ^ 32 := by
  show _ &&& 0xFFFFFFFF < 2 ^ 32
  exact lt_of_le_of_lt Nat.and_le_right (by norm_num)

theorem XORShiftRNG.stateAfter_succ_next (g : XORShiftRNG) (k : Nat) :
    g.next.1.stateAfter k = g.stateAfter (k + 1) := by
  induction k with
  | zero => rfl
  | succ n ih =>
    show (g.next.1.stateAfter n).next.1 = (g.stateAfter (n + 1)).next.1
    rw [ih]

theorem XORShiftRNG.nextList_len (g : XORShiftRNG) (k : Nat) :
    (g.nextList k).2.length = k := by
  induction k generalizing g with
  | zero => rfl
  | succ n ih =>
    show (g.next.2 :: (g.next.1.nextList n).2).length = n + 1
    rw [List.length_cons, ih]

theorem XORShiftRNG.nextList_final (g : XORShiftRNG) (k : Nat) :
    (g.nextList k).1 = g.stateAfter k := by
  induction k generalizing g with
  | zero => rfl
  | succ n ih =>
    show (g.next.1.nextList n).1 = g.stateAfter (n + 1)
    rw [ih, stateAfter_succ_next]

theorem XORShiftRNG.nextList_elem (g : XORShiftRNG) (k i : Nat) (h : i < k) :
    (g.nextList k).2[i]? = some ((g.stateAfter i).next.2) := by
  induction k generalizing g i with
  | zero => omega
  | succ n ih =>
    show (g.next.2 :: (g.next.1.nextList n).2)[i]? = some ((g.stateAfter i).next.2)
    cases i with
    | zero =>
      rw [List.getElem?_cons_zero]
      exact rfl
    | succ j =>
      have hj : j < n := by omega
      rw [List.getElem?_cons_succ, ih g.next.1 j hj, stateAfter_succ_next]

theorem XORShiftRNG.stateAfter_lt (g : XORShiftRNG) (h : g.state < 2 ^ 32) (k : Nat) :
    (g.stateAfter k).state < 2 ^ 32 := by
  cases k with
  | zero => exact h
  | succ n => exact XORShiftRNG.next_state_lt (g.stateAfter n)

theorem minmaxScale_length (seq : List Int) : (minmaxScale seq).length = seq.length := by
  unfold minmaxScale
  by_cases h : pymax seq = pymin seq
  · rw [if_pos h, List.length_map]
  · rw [if_neg h, List.length_map]

theorem minmaxScaleN_length (seq : List Nat) : (minmaxScaleN seq).length = seq.length := by
  unfold minmaxScaleN
  by_cases h : pymax seq = pymin seq
  · rw [if_pos h, List.length_map]
  · rw [if_neg h, List.length_map]

theorem LCG.generate_sequence_raw_eq (g : LCG) (n : Int) (hn : 0 < n) :
    g.generate_sequence n false =
      ((g.nextList n.toNat).1, .ok (.raw (g.nextList n.toNat).2)) := by
  unfold LCG.generate_sequence
  rw [if_neg (not_le.mpr hn)]
  rfl

theorem LCG.generate_sequence_scaled_eq (g : LCG) (n : Int) (hn : 0 < n) :
    g.generate_sequence n true =
      ((g.nextList n.toNat).1, .ok (.scaled (minmaxScale (g.nextList n.toNat).2))) := by
  unfold LCG.generate_sequence
  rw [if_neg (not_le.mpr hn)]
  rfl

theorem XORShiftRNG.generate_sequence_raw_unfold (g : XORShiftRNG) (n : Int) (hn : 0 < n) :
    g.generate_sequence n false =
      ((g.nextList n.toNat).1, .ok (.raw (g.nextList n.toNat).2)) := by
  unfold XORShiftRNG.generate_sequence
  rw [if_neg (not_le.mpr hn)]
  rfl

theorem XORShiftRNG.generate_sequence_scaled_unfold (g : XORShiftRNG) (n : Int) (hn : 0 < n) :
    g.generate_sequence n true =
      ((g.nextList n.toNat).1, .ok (.scaled (minmaxScaleN (g.nextList n.toNat).2))) := by
  unfold XORShiftRNG.generate_sequence
  rw [if_neg (not_le.mpr hn)]
  rfl

theorem XORShiftRNG.next_zero (g : XORShiftRNG) (hg : g.state = 0) :
    g.next = (g, 0) := by
  cases g with
  | mk st q r s =>
    have hst : st = 0 := hg
    subst hst
    simp [XORShiftRNG.next, Nat.zero_shiftLeft, Nat.zero_and, Nat.zero_xor,
      Nat.xor_zero, Nat.zero_shiftRight]

/-! Claim theorems. -/

/-- C1: For an LCG constructed with seed 123456 and the default parameters
`a=1664525, c=1013904223, m=2^32`, the first `next()` call returns exactly
`(1664525 * 123456 + 1013904223) mod 2^32`, which is the literal
`351072415`; in general, `next()` sets the state to `(a * state + c) mod m`,
leaves `a`, `c`, `m` unchanged, and returns the new state. -/
theorem C1_lcg_next_formula :
    (∀ g : LCG, g.next.1.state = (g.a * g.state + g.c).fmod g.m ∧
      g.next.2 = g.next.1.state ∧
      g.next.1.a = g.a ∧ g.next.1.c = g.c ∧ g.next.1.m = g.m) ∧
    (LCG.initDefault 123456).map (fun g => g.next.2) = .ok 351072415 ∧
    (1664525 * 123456 + 1013904223 : Int).fmod (2 ^ 32) = 351072415 := by
  refine ⟨fun g => ⟨rfl, rfl, rfl, rfl, rfl⟩, rfl, rfl⟩

/-- C2: For every `XORShiftRNG` state, `next()` applies the three steps
`x ^= (x << q)` masked to 32 bits, `x ^= (x >> r)`, `x ^= (x << s)` masked
to 32 bits — masking (reduction mod `2^32`) after each left shift — stores
the final masked value as the new state, keeps `q`, `r`, `s`, and returns
the new state; with seed 123456 and `q=13, r=17, s=5` the first `next()`
equals the literal `3044438244` obtained by applying the three steps to
`123456`. -/
theorem C2_xorshift_next_steps :
    (∀ g : XORShiftRNG,
      g.next.1.state =
        (let x1 := g.state ^^^ (g.state <<< g.q % 2 ^ 32)
         let x2 := x1 ^^^ (x1 >>> g.r)
         let x3 := x2 ^^^ (x2 <<< g.s % 2 ^ 32)
         x3 % 2 ^ 32) ∧
      g.next.2 = g.next.1.state ∧
      g.next.1.q = g.q ∧ g.next.1.r = g.r ∧ g.next.1.s = g.s) ∧
    (XORShiftRNG.initDefault 123456).map (fun g => g.next.2) = .ok 3044438244 := by
  refine ⟨fun g => ⟨?_, rfl, rfl, rfl, rfl⟩, rfl⟩
  show (let x1 := g.state ^^^ (g.state <<< g.q &&& 0xFFFFFFFF)
        let x2 := x1 ^^^ (x1 >>> g.r)
        let x3 := x2 ^^^ (x2 <<< g.s &&& 0xFFFFFFFF)
        x3 &&& 0xFFFFFFFF) = _
  simp only [mask_eq_mod]

/-- C9: Determinism — two generators of the same kind constructed from the
same seed and parameters produce identical sequences of `next()` values,
for every number of calls. -/
theorem C9_determinism :
    (∀ (seed a c m : Int) (g1 g2 : LCG),
      LCG.init seed a c m = .ok g1 → LCG.init seed a c m = .ok g2 →
      ∀ k : Nat, (g1.stateAfter k).next.2 = (g2.stateAfter k).next.2) ∧
    (∀ (seed : Int) (q r s : Nat) (g1 g2 : XORShiftRNG),
      XORShiftRNG.init seed q r s = .ok g1 → XORShiftRNG.init seed q r s = .ok g2 →
      ∀ k : Nat, (g1.stateAfter k).next.2 = (g2.stateAfter k).next.2) := by
  constructor
  · intro seed a c m g1 g2 h1 h2 k
    rw [h1] at h2
    obtain rfl : g1 = g2 := Except.ok.inj h2
    rfl
  · intro seed q r s g1 g2 h1 h2 k
    rw [h1] at h2
    obtain rfl : g1 = g2 := Except.ok.inj h2
    rfl

/-- Witness for C9 at seed 123456 with the default parameters of each
generator, comparing the fourth `next()` value. -/
theorem C9_determinism_witness :
    LCG.init 123456 1664525 1013904223 (2 ^ 32) =
      .ok ⟨123456, 1664525, 1013904223, 2 ^ 32⟩ ∧
    XORShiftRNG.init 123456 13 17 5 = .ok ⟨123456, 13, 17, 5⟩ ∧
    ((⟨123456, 1664525, 1013904223, 2 ^ 32⟩ : LCG).stateAfter 3).next.2 =
      ((⟨123456, 1664525, 1013904223, 2 ^ 32⟩ : LCG).stateAfter 3).next.2 ∧
    ((⟨123456, 13, 17, 5⟩ : XORShiftRNG).stateAfter 3).next.2 =
      ((⟨123456, 13, 17, 5⟩ : XORShiftRNG).stateAfter 3).next.2 :=
  ⟨rfl, rfl,
    C9_determinism.1 123456 1664525 1013904223 (2 ^ 32)
      ⟨123456, 1664525, 1013904223, 2 ^ 32⟩ ⟨123456, 1664525, 1013904223, 2 ^ 32⟩
      (by rfl) (by rfl) 3,
    C9_determinism.2 123456 13 17 5 ⟨123456, 13, 17, 5⟩ ⟨123456, 13, 17, 5⟩
      (by rfl) (by rfl) 3⟩

/-- C10: The non-zero multiple `seed = 2^32` of `2^32` passes the non-zero
seed check of `XORShiftRNG` yet yields `state = 0`; `0` is a fixed point of
the three xor-shift steps, so from state `0` every `next()` returns `0` and
the state stays `0` forever. -/
theorem C10_xorshift_zero_state_trap :
    XORShiftRNG.init (2 ^ 32) 13 17 5 = .ok ⟨0, 13, 17, 5⟩ ∧
    (2 ^ 32 : Int) ≠ 0 ∧
    (∀ g : XORShiftRNG, g.state = 0 → g.next = (g, 0)) ∧
    (∀ (g : XORShiftRNG) (k : Nat), g.state = 0 →
      (g.stateAfter k).state = 0 ∧ (g.stateAfter k).next.2 = 0) := by
  refine ⟨rfl, by decide, fun g hg => XORShiftRNG.next_zero g hg, ?_⟩
  intro g k hg
  induction k with
  | zero =>
    refine ⟨hg, ?_⟩
    show g.next.2 = 0
    rw [XORShiftRNG.next_zero g hg]
  | succ j ih =>
    have hstep : (g.stateAfter (j + 1)) = g.stateAfter j := by
      show (g.stateAfter j).next.1 = g.stateAfter j
      rw [XORShiftRNG.next_zero (g.stateAfter j) ih.1]
    rw [hstep]
    exact ih

/-- Witness for C10 at the concrete trapped generator, two steps out. -/
theorem C10_xorshift_zero_state_trap_witness :
    (⟨0, 13, 17, 5⟩ : XORShiftRNG).state = 0 ∧
    ((⟨0, 13, 17, 5⟩ : XORShiftRNG).stateAfter 2).state = 0 ∧
    ((⟨0, 13, 17, 5⟩ : XORShiftRNG).stateAfter 2).next.2 = 0 :=
  ⟨rfl,
    (C10_xorshift_zero_state_trap.2.2.2 ⟨0, 13, 17, 5⟩ 2 rfl).1,
    (C10_xorshift_zero_state_trap.2.2.2 ⟨0, 13, 17, 5⟩ 2 rfl).2⟩

/-- C3: For either generator and `low ≤ high`, `randint(low, high)` returns
exactly `low + (next() mod (high - low + 1))`, and that value lies in
`[low, high]`. -/
theorem C3_randint_formula_and_bounds :
    (∀ (g : LCG) (low high : Int), low ≤ high →
      g.randint low high = (g.next.1, .ok (low + g.next.2.fmod (high - low + 1))) ∧
      low ≤ low + g.next.2.fmod (high - low + 1) ∧
      low + g.next.2.fmod (high - low + 1) ≤ high) ∧
    (∀ (g : XORShiftRNG) (low high : Int), low ≤ high →
      g.randint low high =
        (g.next.1, .ok (low + (g.next.2 : Int).fmod (high - low + 1))) ∧
      low ≤ low + (g.next.2 : Int).fmod (high - low + 1) ∧
      low + (g.next.2 : Int).fmod (high - low + 1) ≤ high) := by
  constructor
  · intro g low high hlh
    have hpos : (0 : Int) < high - low + 1 := by omega
    have h0 := Int.fmod_nonneg' g.next.2 hpos
    have h1 := Int.fmod_lt_of_pos g.next.2 hpos
    refine ⟨?_, by omega, by omega⟩
    unfold LCG.randint
    rw [if_neg (not_lt.mpr hlh)]
  · intro g low high hlh
    have hpos : (0 : Int) < high - low + 1 := by omega
    have h0 := Int.fmod_nonneg' (g.next.2 : Int) hpos
    have h1 := Int.fmod_lt_of_pos (g.next.2 : Int) hpos
    refine ⟨?_, by omega, by omega⟩
    unfold XORShiftRNG.randint
    rw [if_neg (not_lt.mpr hlh)]

/-- Witness for C3: both generators sampled on the range `[10, 20]`. -/
theorem C3_randint_formula_and_bounds_witness :
    (10 : Int) ≤ 20 ∧
    ((⟨1, 1, 1, 10⟩ : LCG).randint 10 20 =
        ((⟨1, 1, 1, 10⟩ : LCG).next.1,
          .ok (10 + (⟨1, 1, 1, 10⟩ : LCG).next.2.fmod (20 - 10 + 1))) ∧
      10 ≤ 10 + (⟨1, 1, 1, 10⟩ : LCG).next.2.fmod (20 - 10 + 1) ∧
      10 + (⟨1, 1, 1, 10⟩ : LCG).next.2.fmod (20 - 10 + 1) ≤ 20) ∧
    ((⟨1, 13, 17, 5⟩ : XORShiftRNG).randint 10 20 =
        ((⟨1, 13, 17, 5⟩ : XORShiftRNG).next.1,
          .ok (10 + ((⟨1, 13, 17, 5⟩ : XORShiftRNG).next.2 : Int).fmod (20 - 10 + 1))) ∧
      10 ≤ 10 + ((⟨1, 13, 17, 5⟩ : XORShiftRNG).next.2 : Int).fmod (20 - 10 + 1) ∧
      10 + ((⟨1, 13, 17, 5⟩ : XORShiftRNG).next.2 : Int).fmod (20 - 10 + 1) ≤ 20) :=
  ⟨by decide,
    C3_randint_formula_and_bounds.1 ⟨1, 1, 1, 10⟩ 10 20 (by decide),
    C3_randint_formula_and_bounds.2 ⟨1, 13, 17, 5⟩ 10 20 (by decide)⟩

/-- C4: `random()` returns `next()` divided by the modulus (`m`, resp.
`2^32`) as real-valued division, and the result lies in `[0, 1)`; for the
LCG this holds whenever the configured modulus is positive. -/
theorem C4_random_unit_interval :
    (∀ g : LCG, 0 < g.m →
      g.random = (g.next.1, (g.next.2 : ℚ) / (g.m : ℚ)) ∧
      0 ≤ g.random.2 ∧ g.random.2 < 1) ∧
    (∀ g : XORShiftRNG,
      g.random = (g.next.1, (g.next.2 : ℚ) / (2 ^ 32 : ℚ)) ∧
      0 ≤ g.random.2 ∧ g.random.2 < 1) := by
  constructor
  · intro g hm
    obtain ⟨h0, h1⟩ := LCG.next_state_bounds g hm
    have h2 : g.next.2 = g.next.1.state := rfl
    rw [h2] at *
    refine ⟨rfl, ?_, ?_⟩
    · show 0 ≤ (g.next.1.state : ℚ) / (g.m : ℚ)
      apply div_nonneg
      · exact_mod_cast h0
      · exact_mod_cast hm.le
    · show (g.next.1.state : ℚ) / (g.m : ℚ) < 1
      rw [div_lt_one (by exact_mod_cast hm)]
      exact_mod_cast h1
  · intro g
    have h1 : g.next.1.state < 2 ^ 32 := XORShiftRNG.next_state_lt g
    have h2 : g.next.2 = g.next.1.state := rfl
    refine ⟨rfl, ?_, ?_⟩
    · show 0 ≤ (g.next.2 : ℚ) / (2 ^ 32 : ℚ)
      positivity
    · show (g.next.2 : ℚ) / (2 ^ 32 : ℚ) < 1
      rw [div_lt_one (by positivity), h2]
      exact_mod_cast h1

/-- Witness for C4 at a concrete LCG with positive modulus and a concrete
`XORShiftRNG`. -/
theorem C4_random_unit_interval_witness :
    (0 : Int) < (⟨1, 1, 1, 10⟩ : LCG).m ∧
    ((⟨1, 1, 1, 10⟩ : LCG).random =
        ((⟨1, 1, 1, 10⟩ : LCG).next.1,
          ((⟨1, 1, 1, 10⟩ : LCG).next.2 : ℚ) / ((⟨1, 1, 1, 10⟩ : LCG).m : ℚ)) ∧
      0 ≤ (⟨1, 1, 1, 10⟩ : LCG).random.2 ∧ (⟨1, 1, 1, 10⟩ : LCG).random.2 < 1) ∧
    ((⟨1, 13, 17, 5⟩ : XORShiftRNG).random =
        ((⟨1, 13, 17, 5⟩ : XORShiftRNG).next.1,
          ((⟨1, 13, 17, 5⟩ : XORShiftRNG).next.2 : ℚ) / (2 ^ 32 : ℚ)) ∧
      0 ≤ (⟨1, 13, 17, 5⟩ : XORShiftRNG).random.2 ∧
      (⟨1, 13, 17, 5⟩ : XORShiftRNG).random.2 < 1) :=
  ⟨by decide,
    C4_random_unit_interval.1 ⟨1, 1, 1, 10⟩ (by decide),
    C4_random_unit_interval.2 ⟨1, 13, 17, 5⟩⟩

/-- C6: For either generator and `n > 0`, `generate_sequence(n, scale=False)`
returns exactly `n` raw integers, the `i`-th being the value of the
`(i+1)`-st successive `next()` call from the prior state (one continuous
stream), and leaves the generator in the state reached after those `n`
calls. -/
theorem C6_generate_sequence_raw_stream :
    (∀ (g : LCG) (n : Int), 0 < n →
      g.generate_sequence n false =
        (g.stateAfter n.toNat, .ok (.raw (g.nextList n.toNat).2)) ∧
      (g.nextList n.toNat).2.length = n.toNat ∧
      ∀ i : Nat, i < n.toNat →
        (g.nextList n.toNat).2[i]? = some ((g.stateAfter i).next.2)) ∧
    (∀ (g : XORShiftRNG) (n : Int), 0 < n →
      g.generate_sequence n false =
        (g.stateAfter n.toNat, .ok (.raw (g.nextList n.toNat).2)) ∧
      (g.nextList n.toNat).2.length = n.toNat ∧
      ∀ i : Nat, i < n.toNat →
        (g.nextList n.toNat).2[i]? = some ((g.stateAfter i).next.2)) := by
  constructor
  · intro g n hn
    refine ⟨?_, LCG.nextList_length g n.toNat,
      fun i hi => LCG.nextList_getElem g n.toNat i hi⟩
    rw [LCG.generate_sequence_raw_eq g n hn, LCG.nextList_fst]
  · intro g n hn
    refine ⟨?_, XORShiftRNG.nextList_len g n.toNat,
      fun i hi => XORShiftRNG.nextList_elem g n.toNat i hi⟩
    rw [XORShiftRNG.generate_sequence_raw_unfold g n hn, XORShiftRNG.nextList_final]

/-- Witness for C6 with `n = 3` on concrete generators. -/
theorem C6_generate_sequence_raw_stream_witness :
    (0 : Int) < 3 ∧
    ((⟨1, 1, 1, 10⟩ : LCG).generate_sequence 3 false =
        ((⟨1, 1, 1, 10⟩ : LCG).stateAfter (3 : Int).toNat,
          .ok (.raw ((⟨1, 1, 1, 10⟩ : LCG).nextList (3 : Int).toNat).2)) ∧
      ((⟨1, 1, 1, 10⟩ : LCG).nextList (3 : Int).toNat).2.length = (3 : Int).toNat ∧
      ∀ i : Nat, i < (3 : Int).toNat →
        ((⟨1, 1, 1, 10⟩ : LCG).nextList (3 : Int).toNat).2[i]? =
          some (((⟨1, 1, 1, 10⟩ : LCG).stateAfter i).next.2)) ∧
    ((⟨1, 13, 17, 5⟩ : XORShiftRNG).generate_sequence 3 false =
        ((⟨1, 13, 17, 5⟩ : XORShiftRNG).stateAfter (3 : Int).toNat,
          .ok (.raw ((⟨1, 13, 17, 5⟩ : XORShiftRNG).nextList (3 : Int).toNat).2)) ∧
      ((⟨1, 13, 17, 5⟩ : XORShiftRNG).nextList (3 : Int).toNat).2.length = (3 : Int).toNat ∧
      ∀ i : Nat, i < (3 : Int).toNat →
        ((⟨1, 13, 17, 5⟩ : XORShiftRNG).nextList (3 : Int).toNat).2[i]? =
          some (((⟨1, 13, 17, 5⟩ : XORShiftRNG).stateAfter i).next.2)) :=
  ⟨by decide,
    C6_generate_sequence_raw_stream.1 ⟨1, 1, 1, 10⟩ 3 (by decide),
    C6_generate_sequence_raw_stream.2 ⟨1, 13, 17, 5⟩ 3 (by decide)⟩

/-- C7: Error handling — construction with seed 0 fails with the
invalid-seed error and produces no object (any non-zero seed succeeds);
`randint` fails with the invalid-range error exactly when `low > high`;
`generate_sequence` fails with the invalid-count error exactly when
`n ≤ 0`; and every per-call failure returns the generator unchanged, with
no `next()` consumed. -/
theorem C7_error_handling :
    (∀ a c m : Int, LCG.init 0 a c m = .error .invalidSeed) ∧
    (∀ seed a c m : Int, seed ≠ 0 → LCG.init seed a c m = .ok ⟨seed.fmod m, a, c, m⟩) ∧
    (∀ q r s : Nat, XORShiftRNG.init 0 q r s = .error .invalidSeed) ∧
    (∀ (seed : Int) (q r s : Nat), seed ≠ 0 →
      XORShiftRNG.init seed q r s = .ok ⟨(seed.fmod (2 ^ 32)).toNat, q, r, s⟩) ∧
    (∀ (g : LCG) (low high : Int),
      (high < low → g.randint low high = (g, .error .invalidRange)) ∧
      (low ≤ high → g.randint low high =
        (g.next.1, .ok (low + g.next.2.fmod (high - low + 1))))) ∧
    (∀ (g : XORShiftRNG) (low high : Int),
      (high < low → g.randint low high = (g, .error .invalidRange)) ∧
      (low ≤ high → g.randint low high =
        (g.next.1, .ok (low + (g.next.2 : Int).fmod (high - low + 1))))) ∧
    (∀ (g : LCG) (n : Int) (scale : Bool),
      (n ≤ 0 → g.generate_sequence n scale = (g, .error .invalidCount)) ∧
      (0 < n → ∃ res, g.generate_sequence n scale =
        ((g.nextList n.toNat).1, .ok res))) ∧
    (∀ (g : XORShiftRNG) (n : Int) (scale : Bool),
      (n ≤ 0 → g.generate_sequence n scale = (g, .error .invalidCount)) ∧
      (0 < n → ∃ res, g.generate_sequence n scale =
        ((g.nextList n.toNat).1, .ok res))) := by
  refine ⟨fun a c m => rfl, ?_, fun q r s => rfl, ?_, ?_, ?_, ?_, ?_⟩
  · intro seed a c m hs
    unfold LCG.init
    rw [if_neg hs]
  · intro seed q r s hs
    unfold XORShiftRNG.init
    rw [if_neg hs]
  · intro g low high
    constructor
    · intro h
      unfold LCG.randint
      rw [if_pos h]
    · intro h
      unfold LCG.randint
      rw [if_neg (not_lt.mpr h)]
  · intro g low high
    constructor
    · intro h
      unfold XORShiftRNG.randint
      rw [if_pos h]
    · intro h
      unfold XORShiftRNG.randint
      rw [if_neg (not_lt.mpr h)]
  · intro g n scale
    constructor
    · intro h
      unfold LCG.generate_sequence
      rw [if_pos h]
    · intro h
      cases scale
      · exact ⟨.raw (g.nextList n.toNat).2, LCG.generate_sequence_raw_eq g n h⟩
      · exact ⟨.scaled (minmaxScale (g.nextList n.toNat).2),
          LCG.generate_sequence_scaled_eq g n h⟩
  · intro g n scale
    constructor
    · intro h
      unfold XORShiftRNG.generate_sequence
      rw [if_pos h]
    · intro h
      cases scale
      · exact ⟨.raw (g.nextList n.toNat).2, XORShiftRNG.generate_sequence_raw_unfold g n h⟩
      · exact ⟨.scaled (minmaxScaleN (g.nextList n.toNat).2),
          XORShiftRNG.generate_sequence_scaled_unfold g n h⟩

/-- Witness for C7: each error and success branch exercised at concrete
inputs. -/
theorem C7_error_handling_witness :
    LCG.init 0 1664525 1013904223 (2 ^ 32) = .error .invalidSeed ∧
    (123456 : Int) ≠ 0 ∧
    LCG.init 123456 1664525 1013904223 (2 ^ 32) =
      .ok ⟨(123456 : Int).fmod (2 ^ 32), 1664525, 1013904223, 2 ^ 32⟩ ∧
    XORShiftRNG.init 0 13 17 5 = .error .invalidSeed ∧
    XORShiftRNG.init 123456 13 17 5 =
      .ok ⟨((123456 : Int).fmod (2 ^ 32)).toNat, 13, 17, 5⟩ ∧
    (5 : Int) < 10 ∧
    (⟨1, 1, 1, 10⟩ : LCG).randint 10 5 = (⟨1, 1, 1, 10⟩, .error .invalidRange) ∧
    (0 : Int) ≤ 9 ∧
    (⟨1, 1, 1, 10⟩ : LCG).randint 0 9 =
      ((⟨1, 1, 1, 10⟩ : LCG).next.1,
        .ok (0 + (⟨1, 1, 1, 10⟩ : LCG).next.2.fmod (9 - 0 + 1))) ∧
    (⟨1, 13, 17, 5⟩ : XORShiftRNG).randint 10 5 =
      (⟨1, 13, 17, 5⟩, .error .invalidRange) ∧
    (⟨1, 13, 17, 5⟩ : XORShiftRNG).randint 0 9 =
      ((⟨1, 13, 17, 5⟩ : XORShiftRNG).next.1,
        .ok (0 + ((⟨1, 13, 17, 5⟩ : XORShiftRNG).next.2 : Int).fmod (9 - 0 + 1))) ∧
    (-1 : Int) ≤ 0 ∧
    (⟨1, 1, 1, 10⟩ : LCG).generate_sequence (-1) true =
      (⟨1, 1, 1, 10⟩, .error .invalidCount) ∧
    (0 : Int) < 2 ∧
    (∃ res, (⟨1, 1, 1, 10⟩ : LCG).generate_sequence 2 true =
      (((⟨1, 1, 1, 10⟩ : LCG).nextList (2 : Int).toNat).1, .ok res)) ∧
    (⟨1, 13, 17, 5⟩ : XORShiftRNG).generate_sequence (-1) false =
      (⟨1, 13, 17, 5⟩, .error .invalidCount) ∧
    (∃ res, (⟨1, 13, 17, 5⟩ : XORShiftRNG).generate_sequence 2 false =
      (((⟨1, 13, 17, 5⟩ : XORShiftRNG).nextList (2 : Int).toNat).1, .ok res)) :=
  ⟨C7_error_handling.1 1664525 1013904223 (2 ^ 32),
    by decide,
    C7_error_handling.2.1 123456 1664525 1013904223 (2 ^ 32) (by decide),
    C7_error_handling.2.2.1 13 17 5,
    C7_error_handling.2.2.2.1 123456 13 17 5 (by decide),
    by decide,
    (C7_error_handling.2.2.2.2.1 ⟨1, 1, 1, 10⟩ 10 5).1 (by decide),
    by decide,
    (C7_error_handling.2.2.2.2.1 ⟨1, 1, 1, 10⟩ 0 9).2 (by decide),
    (C7_error_handling.2.2.2.2.2.1 ⟨1, 13, 17, 5⟩ 10 5).1 (by decide),
    (C7_error_handling.2.2.2.2.2.1 ⟨1, 13, 17, 5⟩ 0 9).2 (by decide),
    by decide,
    (C7_error_handling.2.2.2.2.2.2.1 ⟨1, 1, 1, 10⟩ (-1) true).1 (by decide),
    by decide,
    (C7_error_handling.2.2.2.2.2.2.1 ⟨1, 1, 1, 10⟩ 2 true).2 (by decide),
    (C7_error_handling.2.2.2.2.2.2.2 ⟨1, 13, 17, 5⟩ (-1) false).1 (by decide),
    (C7_error_handling.2.2.2.2.2.2.2 ⟨1, 13, 17, 5⟩ 2 false).2 (by decide)⟩

/-- C8: State invariant — for an LCG with positive modulus, construction
puts `state = seed mod m` in `[0, m-1]`, and `next`, `random`, `randint`
and `generate_sequence` all leave the state in `[0, m-1]` (with `next`
returning the new state); for `XORShiftRNG`, construction and every
operation leave the state in `[0, 2^32-1]`, and `next()` returns a value in
that range. -/
theorem C8_state_invariant :
    (∀ (seed a c m : Int) (g : LCG), 0 < m → LCG.init seed a c m = .ok g →
      g.state = seed.fmod m ∧ 0 ≤ g.state ∧ g.state ≤ m - 1) ∧
    (∀ g : LCG, 0 < g.m →
      g.next.2 = g.next.1.state ∧ 0 ≤ g.next.1.state ∧ g.next.1.state ≤ g.m - 1) ∧
    (∀ g : LCG, 0 < g.m →
      0 ≤ g.random.1.state ∧ g.random.1.state ≤ g.m - 1) ∧
    (∀ (g : LCG) (low high : Int), 0 < g.m → 0 ≤ g.state → g.state ≤ g.m - 1 →
      0 ≤ (g.randint low high).1.state ∧ (g.randint low high).1.state ≤ g.m - 1) ∧
    (∀ (g : LCG) (n : Int) (scale : Bool), 0 < g.m → 0 ≤ g.state → g.state ≤ g.m - 1 →
      0 ≤ (g.generate_sequence n scale).1.state ∧
      (g.generate_sequence n scale).1.state ≤ g.m - 1) ∧
    (∀ (seed : Int) (q r s : Nat) (g : XORShiftRNG),
      XORShiftRNG.init seed q r s = .ok g → g.state ≤ 2 ^ 32 - 1) ∧
    (∀ g : XORShiftRNG,
      g.next.2 = g.next.1.state ∧ g.next.1.state ≤ 2 ^ 32 - 1) ∧
    (∀ g : XORShiftRNG, g.random.1.state ≤ 2 ^ 32 - 1) ∧
    (∀ (g : XORShiftRNG) (low high : Int), g.state ≤ 2 ^ 32 - 1 →
      (g.randint low high).1.state ≤ 2 ^ 32 - 1) ∧
    (∀ (g : XORShiftRNG) (n : Int) (scale : Bool), g.state ≤ 2 ^ 32 - 1 →
      (g.generate_sequence n scale).1.state ≤ 2 ^ 32 - 1) := by
  refine ⟨?_, ?_, ?_, ?_, ?_, ?_, ?_, ?_, ?_, ?_⟩
  · intro seed a c m g hm hg
    unfold LCG.init at hg
    by_cases hs : seed = 0
    · rw [if_pos hs] at hg
      cases hg
    · rw [if_neg hs] at hg
      obtain rfl := (Except.ok.inj hg).symm
      have h0 := Int.fmod_nonneg' seed hm
      have h1 := Int.fmod_lt_of_pos seed hm
      refine ⟨rfl, ?_⟩
      show 0 ≤ seed.fmod m ∧ seed.fmod m ≤ m - 1
      omega
  · intro g hm
    obtain ⟨h0, h1⟩ := LCG.next_state_bounds g hm
    exact ⟨rfl, h0, by omega⟩
  · intro g hm
    obtain ⟨h0, h1⟩ := LCG.next_state_bounds g hm
    show 0 ≤ g.next.1.state ∧ g.next.1.state ≤ g.m - 1
    exact ⟨h0, by omega⟩
  · intro g low high hm hs0 hs1
    unfold LCG.randint
    by_cases h : high < low
    · rw [if_pos h]
      exact ⟨hs0, hs1⟩
    · rw [if_neg h]
      obtain ⟨h0, h1⟩ := LCG.next_state_bounds g hm
      show 0 ≤ g.next.1.state ∧ g.next.1.state ≤ g.m - 1
      exact ⟨h0, by omega⟩
  · intro g n scale hm hs0 hs1
    by_cases hn : n ≤ 0
    · unfold LCG.generate_sequence
      rw [if_pos hn]
      exact ⟨hs0, hs1⟩
    · have hfst : (g.generate_sequence n scale).1 = g.stateAfter n.toNat := by
        unfold LCG.generate_sequence
        rw [if_neg hn]
        cases scale
        · exact LCG.nextList_fst g n.toNat
        · exact LCG.nextList_fst g n.toNat
      rw [hfst]
      obtain ⟨h0, h1⟩ := LCG.stateAfter_bounds g hm hs0 (by omega) n.toNat
      exact ⟨h0, by omega⟩
  · intro seed q r s g hg
    unfold XORShiftRNG.init at hg
    by_cases hs : seed = 0
    · rw [if_pos hs] at hg
      cases hg
    · rw [if_neg hs] at hg
      obtain rfl := (Except.ok.inj hg).symm
      have h1 := Int.fmod_lt_of_pos seed (by norm_num : (0 : Int) < 2 ^ 32)
      have h0 := Int.fmod_nonneg' seed (by norm_num : (0 : Int) < 2 ^ 32)
      show (seed.fmod (2 ^ 32)).toNat ≤ 2 ^ 32 - 1
      omega
  · intro g
    have := XORShiftRNG.next_state_lt g
    exact ⟨rfl, by omega⟩
  · intro g
    have := XORShiftRNG.next_state_lt g
    show g.next.1.state ≤ 2 ^ 32 - 1
    omega
  · intro g low high hs1
    unfold XORShiftRNG.randint
    by_cases h : high < low
    · rw [if_pos h]
      exact hs1
    · rw [if_neg h]
      have := XORShiftRNG.next_state_lt g
      show g.next.1.state ≤ 2 ^ 32 - 1
      omega
  · intro g n scale hs1
    by_cases hn : n ≤ 0
    · unfold XORShiftRNG.generate_sequence
      rw [if_pos hn]
      exact hs1
    · have hfst : (g.generate_sequence n scale).1 = g.stateAfter n.toNat := by
        unfold XORShiftRNG.generate_sequence
        rw [if_neg hn]
        cases scale
        · exact XORShiftRNG.nextList_final g n.toNat
        · exact XORShiftRNG.nextList_final g n.toNat
      rw [hfst]
      have := XORShiftRNG.stateAfter_lt g (by omega) n.toNat
      omega

/-- Witness for C8: each invariant clause exercised at concrete inputs. -/
theorem C8_state_invariant_witness :
    (0 : Int) < 2 ^ 32 ∧
    ((⟨(123456 : Int).fmod (2 ^ 32), 1664525, 1013904223, 2 ^ 32⟩ : LCG).state =
        (123456 : Int).fmod (2 ^ 32) ∧
      0 ≤ (⟨(123456 : Int).fmod (2 ^ 32), 1664525, 1013904223, 2 ^ 32⟩ : LCG).state ∧
      (⟨(123456 : Int).fmod (2 ^ 32), 1664525, 1013904223, 2 ^ 32⟩ : LCG).state ≤
        2 ^ 32 - 1) ∧
    (0 : Int) < (⟨1, 1, 1, 10⟩ : LCG).m ∧
    ((⟨1, 1, 1, 10⟩ : LCG).next.2 = (⟨1, 1, 1, 10⟩ : LCG).next.1.state ∧
      0 ≤ (⟨1, 1, 1, 10⟩ : LCG).next.1.state ∧
      (⟨1, 1, 1, 10⟩ : LCG).next.1.state ≤ (⟨1, 1, 1, 10⟩ : LCG).m - 1) ∧
    (0 ≤ (⟨1, 1, 1, 10⟩ : LCG).random.1.state ∧
      (⟨1, 1, 1, 10⟩ : LCG).random.1.state ≤ (⟨1, 1, 1, 10⟩ : LCG).m - 1) ∧
    (0 : Int) ≤ (⟨1, 1, 1, 10⟩ : LCG).state ∧
    (⟨1, 1, 1, 10⟩ : LCG).state ≤ (⟨1, 1, 1, 10⟩ : LCG).m - 1 ∧
    (0 ≤ ((⟨1, 1, 1, 10⟩ : LCG).randint 10 5).1.state ∧
      ((⟨1, 1, 1, 10⟩ : LCG).randint 10 5).1.state ≤ (⟨1, 1, 1, 10⟩ : LCG).m - 1) ∧
    (0 ≤ ((⟨1, 1, 1, 10⟩ : LCG).generate_sequence 2 true).1.state ∧
      ((⟨1, 1, 1, 10⟩ : LCG).generate_sequence 2 true).1.state ≤
        (⟨1, 1, 1, 10⟩ : LCG).m - 1) ∧
    ((⟨((123456 : Int).fmod (2 ^ 32)).toNat, 13, 17, 5⟩ : XORShiftRNG).state ≤
      2 ^ 32 - 1) ∧
    ((⟨1, 13, 17, 5⟩ : XORShiftRNG).next.2 =
        (⟨1, 13, 17, 5⟩ : XORShiftRNG).next.1.state ∧
      (⟨1, 13, 17, 5⟩ : XORShiftRNG).next.1.state ≤ 2 ^ 32 - 1) ∧
    (⟨1, 13, 17, 5⟩ : XORShiftRNG).random.1.state ≤ 2 ^ 32 - 1 ∧
    (⟨1, 13, 17, 5⟩ : XORShiftRNG).state ≤ 2 ^ 32 - 1 ∧
    ((⟨1, 13, 17, 5⟩ : XORShiftRNG).randint 10 5).1.state ≤ 2 ^ 32 - 1 ∧
    ((⟨1, 13, 17, 5⟩ : XORShiftRNG).generate_sequence 2 false).1.state ≤ 2 ^ 32 - 1 :=
  ⟨by decide,
    C8_state_invariant.1 123456 1664525 1013904223 (2 ^ 32)
      ⟨(123456 : Int).fmod (2 ^ 32), 1664525, 1013904223, 2 ^ 32⟩ (by decide) (by rfl),
    by decide,
    C8_state_invariant.2.1 ⟨1, 1, 1, 10⟩ (by decide),
    C8_state_invariant.2.2.1 ⟨1, 1, 1, 10⟩ (by decide),
    by decide,
    by decide,
    C8_state_invariant.2.2.2.1 ⟨1, 1, 1, 10⟩ 10 5 (by decide) (by decide) (by decide),
    C8_state_invariant.2.2.2.2.1 ⟨1, 1, 1, 10⟩ 2 true (by decide) (by decide) (by decide),
    C8_state_invariant.2.2.2.2.2.1 123456 13 17 5
      ⟨((123456 : Int).fmod (2 ^ 32)).toNat, 13, 17, 5⟩ (by rfl),
    C8_state_invariant.2.2.2.2.2.2.1 ⟨1, 13, 17, 5⟩,
    C8_state_invariant.2.2.2.2.2.2.2.1 ⟨1, 13, 17, 5⟩,
    by decide,
    C8_state_invariant.2.2.2.2.2.2.2.2.1 ⟨1, 13, 17, 5⟩ 10 5 (by decide),
    C8_state_invariant.2.2.2.2.2.2.2.2.2 ⟨1, 13, 17, 5⟩ 2 false (by decide)⟩

/-- C5: For either generator and `n > 0`, `generate_sequence(n, scale=True)`
draws the `n` raw `next()` values, takes their min `lo` and max `hi`,
returns `n` copies of `0.0` when `hi = lo` and otherwise
`(x - lo) / (hi - lo + 1e-6)` for each raw `x` in order; every scaled value
lies in `[0, 1)`, the minimum raw value maps to exactly `0`, and the
maximum maps to strictly less than `1`. -/
theorem C5_generate_sequence_scaled :
    (∀ (g : LCG) (n : Int), 0 < n → ∀ (g2 : LCG) (seq : List Int),
      g.nextList n.toNat = (g2, seq) →
      g.generate_sequence n true = (g2, .ok (.scaled (minmaxScale seq))) ∧
      (minmaxScale seq).length = n.toNat ∧
      (pymax seq = pymin seq → minmaxScale seq = seq.map fun _ => (0 : ℚ)) ∧
      (¬ pymax seq = pymin seq →
        minmaxScale seq = seq.map (fun (x : Int) =>
          ((x : ℚ) - ((pymin seq : Int) : ℚ)) /
            (((pymax seq : Int) : ℚ) - ((pymin seq : Int) : ℚ) + eps)) ∧
        pymin seq ∈ seq ∧ pymax seq ∈ seq ∧
        (((pymin seq : Int) : ℚ) - ((pymin seq : Int) : ℚ)) /
          (((pymax seq : Int) : ℚ) - ((pymin seq : Int) : ℚ) + eps) = 0 ∧
        (((pymax seq : Int) : ℚ) - ((pymin seq : Int) : ℚ)) /
          (((pymax seq : Int) : ℚ) - ((pymin seq : Int) : ℚ) + eps) < 1) ∧
      (∀ y ∈ minmaxScale seq, 0 ≤ y ∧ y < 1)) ∧
    (∀ (g : XORShiftRNG) (n : Int), 0 < n → ∀ (g2 : XORShiftRNG) (seq : List Nat),
      g.nextList n.toNat = (g2, seq) →
      g.generate_sequence n true = (g2, .ok (.scaled (minmaxScaleN seq))) ∧
      (minmaxScaleN seq).length = n.toNat ∧
      (pymax seq = pymin seq → minmaxScaleN seq = seq.map fun _ => (0 : ℚ)) ∧
      (¬ pymax seq = pymin seq →
        minmaxScaleN seq = seq.map (fun (x : Nat) =>
          ((x : ℚ) - ((pymin seq : Nat) : ℚ)) /
            (((pymax seq : Nat) : ℚ) - ((pymin seq : Nat) : ℚ) + eps)) ∧
        pymin seq ∈ seq ∧ pymax seq ∈ seq ∧
        (((pymin seq : Nat) : ℚ) - ((pymin seq : Nat) : ℚ)) /
          (((pymax seq : Nat) : ℚ) - ((pymin seq : Nat) : ℚ) + eps) = 0 ∧
        (((pymax seq : Nat) : ℚ) - ((pymin seq : Nat) : ℚ)) /
          (((pymax seq : Nat) : ℚ) - ((pymin seq : Nat) : ℚ) + eps) < 1) ∧
      (∀ y ∈ minmaxScaleN seq, 0 ≤ y ∧ y < 1)) := by
  constructor
  · intro g n hn g2 seq hpair
    have h2 : (g.nextList n.toNat).2 = seq := by rw [hpair]
    have hlen : seq.length = n.toNat := by
      rw [← h2]
      exact LCG.nextList_length g n.toNat
    have hne : seq ≠ [] := by
      have hp : 0 < seq.length := by omega
      exact List.length_pos.mp hp
    refine ⟨?_, ?_, minmaxScale_degenerate seq, ?_, minmaxScale_bounds seq hne⟩
    · rw [LCG.generate_sequence_scaled_eq g n hn, hpair]
    · rw [minmaxScale_length]
      exact hlen
    · intro h
      have h3 : pymin seq < pymax seq :=
        lt_of_le_of_ne (pymin_le_pymax seq hne) (Ne.symm h)
      have h3q : ((pymin seq : Int) : ℚ) < ((pymax seq : Int) : ℚ) := by
        exact_mod_cast h3
      refine ⟨minmaxScale_formula seq h, pymin_mem seq hne, pymax_mem seq hne, ?_, ?_⟩
      · rw [sub_self, zero_div]
      · exact (scale_bounds h3q.le (le_refl _) h3q).2
  · intro g n hn g2 seq hpair
    have h2 : (g.nextList n.toNat).2 = seq := by rw [hpair]
    have hlen : seq.length = n.toNat := by
      rw [← h2]
      exact XORShiftRNG.nextList_len g n.toNat
    have hne : seq ≠ [] := by
      have hp : 0 < seq.length := by omega
      exact List.length_pos.mp hp
    refine ⟨?_, ?_, minmaxScaleN_degenerate seq, ?_, minmaxScaleN_bounds seq hne⟩
    · rw [XORShiftRNG.generate_sequence_scaled_unfold g n hn, hpair]
    · rw [minmaxScaleN_length]
      exact hlen
    · intro h
      have h3 : pymin seq < pymax seq :=
        lt_of_le_of_ne (pymin_le_pymax seq hne) (Ne.symm h)
      have h3q : ((pymin seq : Nat) : ℚ) < ((pymax seq : Nat) : ℚ) := by
        exact_mod_cast h3
      refine ⟨minmaxScaleN_formula seq h, pymin_mem seq hne, pymax_mem seq hne, ?_, ?_⟩
      · rw [sub_self, zero_div]
      · exact (scale_bounds h3q.le (le_refl _) h3q).2

/-- Witness for C5: a two-draw LCG sequence `[2, 3]` and a one-draw
`XORShiftRNG` sequence `[270369]` (the degenerate branch). -/
theorem C5_generate_sequence_scaled_witness :
    (0 : Int) < 2 ∧
    (⟨1, 1, 1, 10⟩ : LCG).nextList (2 : Int).toNat = (⟨3, 1, 1, 10⟩, [2, 3]) ∧
    ((⟨1, 1, 1, 10⟩ : LCG).generate_sequence 2 true =
        (⟨3, 1, 1, 10⟩, .ok (.scaled (minmaxScale [2, 3]))) ∧
      (minmaxScale [2, 3]).length = (2 : Int).toNat ∧
      (pymax [(2 : Int), 3] = pymin [(2 : Int), 3] →
        minmaxScale [2, 3] = [(2 : Int), 3].map fun _ => (0 : ℚ)) ∧
      (¬ pymax [(2 : Int), 3] = pymin [(2 : Int), 3] →
        minmaxScale [2, 3] = [(2 : Int), 3].map (fun (x : Int) =>
          ((x : ℚ) - ((pymin [(2 : Int), 3] : Int) : ℚ)) /
            (((pymax [(2 : Int), 3] : Int) : ℚ) -
              ((pymin [(2 : Int), 3] : Int) : ℚ) + eps)) ∧
        pymin [(2 : Int), 3] ∈ [(2 : Int), 3] ∧
        pymax [(2 : Int), 3] ∈ [(2 : Int), 3] ∧
        (((pymin [(2 : Int), 3] : Int) : ℚ) - ((pymin [(2 : Int), 3] : Int) : ℚ)) /
          (((pymax [(2 : Int), 3] : Int) : ℚ) -
            ((pymin [(2 : Int), 3] : Int) : ℚ) + eps) = 0 ∧
        (((pymax [(2 : Int), 3] : Int) : ℚ) - ((pymin [(2 : Int), 3] : Int) : ℚ)) /
          (((pymax [(2 : Int), 3] : Int) : ℚ) -
            ((pymin [(2 : Int), 3] : Int) : ℚ) + eps) < 1) ∧
      (∀ y ∈ minmaxScale [2, 3], 0 ≤ y ∧ y < 1)) ∧
    (0 : Int) < 1 ∧
    (⟨1, 13, 17, 5⟩ : XORShiftRNG).nextList (1 : Int).toNat =
      (⟨270369, 13, 17, 5⟩, [270369]) ∧
    ((⟨1, 13, 17, 5⟩ : XORShiftRNG).generate_sequence 1 true =
        (⟨270369, 13, 17, 5⟩, .ok (.scaled (minmaxScaleN [270369]))) ∧
      (minmaxScaleN [270369]).length = (1 : Int).toNat ∧
      (pymax [(270369 : Nat)] = pymin [(270369 : Nat)] →
        minmaxScaleN [270369] = [(270369 : Nat)].map fun _ => (0 : ℚ)) ∧
      (¬ pymax [(270369 : Nat)] = pymin [(270369 : Nat)] →
        minmaxScaleN [270369] = [(270369 : Nat)].map (fun (x : Nat) =>
          ((x : ℚ) - ((pymin [(270369 : Nat)] : Nat) : ℚ)) /
            (((pymax [(270369 : Nat)] : Nat) : ℚ) -
              ((pymin [(270369 : Nat)] : Nat) : ℚ) + eps)) ∧
        pymin [(270369 : Nat)] ∈ [(270369 : Nat)] ∧
        pymax [(270369 : Nat)] ∈ [(270369 : Nat)] ∧
        (((pymin [(270369 : Nat)] : Nat) : ℚ) -
            ((pymin [(270369 : Nat)] : Nat) : ℚ)) /
          (((pymax [(270369 : Nat)] : Nat) : ℚ) -
            ((pymin [(270369 : Nat)] : Nat) : ℚ) + eps) = 0 ∧
        (((pymax [(270369 : Nat)] : Nat) : ℚ) -
            ((pymin [(270369 : Nat)] : Nat) : ℚ)) /
          (((pymax [(270369 : Nat)] : Nat) : ℚ) -
            ((pymin [(270369 : Nat)] : Nat) : ℚ) + eps) < 1) ∧
      (∀ y ∈ minmaxScaleN [270369], 0 ≤ y ∧ y < 1)) :=
  ⟨by decide, by rfl,
    C5_generate_sequence_scaled.1 ⟨1, 1, 1, 10⟩ 2 (by decide)
      ⟨3, 1, 1, 10⟩ [2, 3] (by rfl),
    by decide, by rfl,
    C5_generate_sequence_scaled.2 ⟨1, 13, 17, 5⟩ 1 (by decide)
      ⟨270369, 13, 17, 5⟩ [270369] (by rfl)⟩

end RNG
